import Mathlib

/-!
Verification of the retry/backoff controller in
src/app/google_api_validator.py and of the SQL validator entry point in
src/app/database.py.

The Python loop `_call_gemini_with_retry` is embedded as a fuel-indexed
recursion `retryFrom`: the fuel counts the remaining iterations of
`for i in range(MAX_RETRIES)`, `i` is the 0-based attempt index, and the
function returns the terminal result together with the number of service
calls made and the ordered list of sleeps performed.  The near-duplicate
loop inside `gemini_grade_full_lab_sheet` is transcribed separately as
`gradeRetryFrom`.  The external service is an oracle `svc : Nat →
ServiceOutcome` giving, for each attempt index, either the response text
or the stringified exception; `json.loads` is an oracle
`parse : String → Option α`.
-/

namespace SqlValidatorGenerator

/-- Constant `MAX_RETRIES = 5` from src/app/google_api_validator.py. -/
def MAX_RETRIES : Nat := 5

/-- Constant `INITIAL_WAIT_SECONDS = 2` from src/app/google_api_validator.py. -/
def INITIAL_WAIT_SECONDS : Nat := 2

/-- Constant `FORCED_WAIT_SECONDS = 20` from src/app/google_api_validator.py. -/
def FORCED_WAIT_SECONDS : Nat := 20

/-- Does `needle` occur as a prefix of `hay`? -/
def matchHere : List Char → List Char → Bool
  | [], _ => true
  | _ :: _, [] => false
  | n :: ns, h :: hs => n = h && matchHere ns hs

/-- Does `needle` occur as a contiguous sublist of the second argument? -/
def findSub (needle : List Char) : List Char → Bool
  | [] => needle.isEmpty
  | c :: hs => matchHere needle (c :: hs) || findSub needle hs

/-- Python `needle in hay` on strings: contiguous-substring containment. -/
def strContains (hay needle : String) : Bool := findSub needle.data hay.data

/-- Strip `p` from the front of a character list, if it is a prefix of it. -/
def stripPre : List Char → List Char → Option (List Char)
  | [], cs => some cs
  | _ :: _, [] => none
  | p :: ps, c :: cs => if p = c then stripPre ps cs else none

/-- ASCII whitespace, the characters matched by Python regex class backslash-s. -/
def pySpace (c : Char) : Bool :=
  c = ' ' || c = '\t' || c = '\n' || c = '\r' || c = '\x0b' || c = '\x0c'

/-- Drop the maximal run of whitespace characters from the front. -/
def dropSpaces : List Char → List Char
  | [] => []
  | c :: cs => if pySpace c then dropSpaces cs else c :: cs

/-- Split off the maximal run of decimal digits from the front. -/
def takeDigits : List Char → List Char × List Char
  | [] => ([], [])
  | c :: cs =>
    if c.isDigit then
      let r := takeDigits cs
      (c :: r.1, r.2)
    else ([], c :: cs)

/-- Decimal value of a digit string, as `int` reads a captured group. -/
def digitsToNat (ds : List Char) : Nat :=
  ds.foldl (fun acc c => acc * 10 + (c.toNat - '0'.toNat)) 0

/-- Match, at the current position, the regular expression
`retry_delay \x7b\s*seconds: (\d+)\s*\x7d` used by the source, returning
the captured number of seconds.  The whitespace classes in the pattern are
followed by characters outside those classes, so greedy matching with no
backtracking is exact here. -/
def matchRetryDelayAt (cs : List Char) : Option Nat :=
  match stripPre ("retry_delay \x7b").data cs with
  | none => none
  | some r1 =>
    match stripPre ("seconds: ").data (dropSpaces r1) with
    | none => none
    | some r2 =>
      let dr := takeDigits r2
      if dr.1.isEmpty then none
      else
        match dropSpaces dr.2 with
        | '\x7d' :: _ => some (digitsToNat dr.1)
        | _ => none

/-- Leftmost match of the retry-delay pattern, as `re.search` finds it. -/
def searchRetryDelay : List Char → Option Nat
  | [] => none
  | c :: rest =>
    match matchRetryDelayAt (c :: rest) with
    | some n => some n
    | none => searchRetryDelay rest

/-- `re.search(r"retry_delay \x7b\s*seconds: (\d+)\s*\x7d", error_str)`
followed by `int(match.group(1))`, from src/app/google_api_validator.py. -/
def extractRetryDelay (s : String) : Option Nat := searchRetryDelay s.data

/-- Replace every non-overlapping occurrence of `needle` in the list,
left to right, as Python `str.replace` does.  The fuel is the length of
the remaining input; both needles used below are nonempty, so the fuel
never runs out on the inputs we pass. -/
def replaceAllFuel (needle repl : List Char) : Nat → List Char → List Char
  | _, [] => []
  | 0, hay => hay
  | fuel + 1, c :: cs =>
    match stripPre needle (c :: cs) with
    | some rest => repl ++ replaceAllFuel needle repl fuel rest
    | none => c :: replaceAllFuel needle repl fuel cs

/-- Python `hay.replace(needle, repl)`. -/
def replaceAllStr (hay needle repl : String) : String :=
  String.mk (replaceAllFuel needle.data repl.data hay.data.length hay.data)

/-- Python `s.strip()`: remove whitespace from both ends. -/
def pyStripStr (s : String) : String :=
  String.mk (((s.data.dropWhile pySpace).reverse.dropWhile pySpace).reverse)

/-- The cleaning step applied to a successful response before parsing:
`response.text.strip().replace("```json", "").replace("```", "")`. -/
def stripJson (s : String) : String :=
  replaceAllStr (replaceAllStr (pyStripStr s) "```json" "") "```" ""

/-- Outcome of one outbound service call: the response text on success, or
the stringified raised exception. -/
inductive ServiceOutcome where
  | ok (text : String)
  | err (msg : String)
deriving DecidableEq, Repr

/-- A sleep performed by the loop.  `backoff` is the `time.sleep(wait_time)`
in the rate-limit branch; `cooldown` stands for the
`time.sleep(FORCED_WAIT_SECONDS)` statement that the source places after
the `return` inside the success branch. -/
inductive Sleep where
  | backoff (seconds : Nat)
  | cooldown (seconds : Nat)
deriving DecidableEq, Repr

/-- Terminal result of the whole loop, one constructor per distinct return
of the source: the parsed payload, the invalid-JSON error dictionary
(carrying the cleaned text), the non-retryable error dictionary
(carrying the stringified exception), and the retries-exhausted error
dictionary after the loop. -/
inductive CallResult (α : Type) where
  | success (payload : α)
  | malformed (raw : String)
  | nonRetryable (msg : String)
  | exhausted
deriving DecidableEq, Repr

/-- The backoff computation of the rate-limit branch: the server-suggested
delay plus a 1-second buffer when the regex matches, else
`initialWait * 2 ^ i`. -/
def backoffWait (initialWait i : Nat) (msg : String) : Nat :=
  match extractRetryDelay msg with
  | some n => n + 1
  | none => initialWait * 2 ^ i

/-- The classification test of the source: an attempt is rate-limited when
the stringified exception contains `"429"`. -/
def isRateLimited : ServiceOutcome → Bool
  | ServiceOutcome.ok _ => false
  | ServiceOutcome.err msg => strContains msg "429"

/-- The body of `_call_gemini_with_retry`, from attempt index `i` with
`fuel` loop iterations left (`fuel = maxRetries - i` at every call).
Returns (result, number of service calls made, sleeps performed in
order).  On a successful call the source returns from inside the inner
try/except on both branches, so the `time.sleep(FORCED_WAIT_SECONDS)`
and the second `return` that follow are dead code and no `Sleep.cooldown`
is ever emitted. -/
def retryFrom {α : Type} (parse : String → Option α) (svc : Nat → ServiceOutcome)
    (maxRetries initialWait : Nat) : Nat → Nat → CallResult α × Nat × List Sleep
  | _, 0 => (CallResult.exhausted, 0, [])
  | i, fuel + 1 =>
    match svc i with
    | ServiceOutcome.ok text =>
      let jsonText := stripJson text
      match parse jsonText with
      | some payload => (CallResult.success payload, 1, [])
      | none => (CallResult.malformed jsonText, 1, [])
    | ServiceOutcome.err msg =>
      if strContains msg "429" then
        let waitTime := backoffWait initialWait i msg
        if i < maxRetries - 1 then
          let rest := retryFrom parse svc maxRetries initialWait (i + 1) fuel
          (rest.1, rest.2.1 + 1, Sleep.backoff waitTime :: rest.2.2)
        else
          let rest := retryFrom parse svc maxRetries initialWait (i + 1) fuel
          (rest.1, rest.2.1 + 1, rest.2.2)
      else
        (CallResult.nonRetryable msg, 1, [])

/-- The retry loop run from the start, for an arbitrary retry ceiling
(the spec's `invoke(prompt, max_retries, ...)`). -/
def callWithRetry {α : Type} (parse : String → Option α) (svc : Nat → ServiceOutcome)
    (maxRetries initialWait : Nat) : CallResult α × Nat × List Sleep :=
  retryFrom parse svc maxRetries initialWait 0 maxRetries

/-- `_call_gemini_with_retry` with the source's constants. -/
def callGeminiWithRetry {α : Type} (parse : String → Option α)
    (svc : Nat → ServiceOutcome) : CallResult α × Nat × List Sleep :=
  callWithRetry parse svc MAX_RETRIES INITIAL_WAIT_SECONDS

/-- The near-duplicate retry loop embedded in `gemini_grade_full_lab_sheet`
(src/app/google_api_validator.py, lines 185-209), transcribed on its own:
same success branch (inner try/except returning on both paths, with the
`time.sleep(FORCED_WAIT_SECONDS)` after it again dead), same `"429"`
test, same regex, same backoff computation, same last-attempt guard. -/
def gradeRetryFrom {α : Type} (parse : String → Option α) (svc : Nat → ServiceOutcome)
    (maxRetries initialWait : Nat) : Nat → Nat → CallResult α × Nat × List Sleep
  | _, 0 => (CallResult.exhausted, 0, [])
  | i, fuel + 1 =>
    match svc i with
    | ServiceOutcome.ok text =>
      let jsonText := stripJson text
      match parse jsonText with
      | some payload => (CallResult.success payload, 1, [])
      | none => (CallResult.malformed jsonText, 1, [])
    | ServiceOutcome.err msg =>
      if strContains msg "429" then
        let waitTime := backoffWait initialWait i msg
        if i < maxRetries - 1 then
          let rest := gradeRetryFrom parse svc maxRetries initialWait (i + 1) fuel
          (rest.1, rest.2.1 + 1, Sleep.backoff waitTime :: rest.2.2)
        else
          let rest := gradeRetryFrom parse svc maxRetries initialWait (i + 1) fuel
          (rest.1, rest.2.1 + 1, rest.2.2)
      else
        (CallResult.nonRetryable msg, 1, [])

/-- The retry loop of `gemini_grade_full_lab_sheet`, run from the start
with the source's constants. -/
def geminiGradeFullLabSheet {α : Type} (parse : String → Option α)
    (svc : Nat → ServiceOutcome) : CallResult α × Nat × List Sleep :=
  gradeRetryFrom parse svc MAX_RETRIES INITIAL_WAIT_SECONDS 0 MAX_RETRIES

/-- Observable database interactions of `validate_sql_query`. -/
inductive DbEvent where
  | connect
  | execute (q : String)
deriving DecidableEq, Repr

/-- The database environment: whether `get_db_connection` yields a
connection (it swallows every connection error and returns `None`), and
the outcome of executing a statement — `none` for success, `some e` for a
`psycopg2.Error` whose string form is `e`. -/
structure DbEnv where
  connectOk : Bool
  explainError : String → Option String

/-- Python `str(db_err).splitlines()[0]`: the text up to the first line
break. -/
def firstLine (s : String) : String :=
  String.mk (s.data.takeWhile (fun c => !(c = '\n' || c = '\r')))

/-- `validate_sql_query` from src/app/database.py.  Returns the Python
result: `Except.ok` for a returned `(is_valid, message)` pair, and
`Except.error` for an exception escaping the function — which happens
when `get_db_connection` returns `None` and `conn.cursor()` raises an
`AttributeError` that the `except psycopg2.Error` clause does not catch —
together with the list of database interactions performed. -/
def validate_sql_query (env : DbEnv) (sql_query : String) :
    Except String (Bool × String) × List DbEvent :=
  if sql_query.isEmpty || (pyStripStr sql_query).isEmpty then
    (Except.ok (false, "Query is empty."), [])
  else if env.connectOk then
    match env.explainError ("EXPLAIN " ++ sql_query) with
    | none =>
      (Except.ok (true, "Query syntax is valid."),
       [DbEvent.connect, DbEvent.execute ("EXPLAIN " ++ sql_query)])
    | some dbErr =>
      (Except.ok (false, "Invalid Query: " ++ firstLine dbErr),
       [DbEvent.connect, DbEvent.execute ("EXPLAIN " ++ sql_query)])
  else
    (Except.error "AttributeError: NoneType object has no attribute cursor",
     [DbEvent.connect])

/-! ### Unfolding lemmas for the loop -/

theorem retryFrom_zero {α : Type} (parse : String → Option α) (svc : Nat → ServiceOutcome)
    (m w i : Nat) : retryFrom parse svc m w i 0 = (CallResult.exhausted, 0, []) := rfl

theorem retryFrom_ok_some {α : Type} (parse : String → Option α) (svc : Nat → ServiceOutcome)
    (m w i fuel : Nat) (t : String) (a : α)
    (ht : svc i = ServiceOutcome.ok t) (hp : parse (stripJson t) = some a) :
    retryFrom parse svc m w i (fuel + 1) = (CallResult.success a, 1, []) := by
  simp [retryFrom, ht, hp]

theorem retryFrom_ok_none {α : Type} (parse : String → Option α) (svc : Nat → ServiceOutcome)
    (m w i fuel : Nat) (t : String)
    (ht : svc i = ServiceOutcome.ok t) (hp : parse (stripJson t) = none) :
    retryFrom parse svc m w i (fuel + 1) = (CallResult.malformed (stripJson t), 1, []) := by
  simp [retryFrom, ht, hp]

theorem retryFrom_err_other {α : Type} (parse : String → Option α) (svc : Nat → ServiceOutcome)
    (m w i fuel : Nat) (msg : String)
    (he : svc i = ServiceOutcome.err msg) (h4 : strContains msg "429" = false) :
    retryFrom parse svc m w i (fuel + 1) = (CallResult.nonRetryable msg, 1, []) := by
  simp [retryFrom, he, h4]

theorem retryFrom_err_429_lt {α : Type} (parse : String → Option α) (svc : Nat → ServiceOutcome)
    (m w i fuel : Nat) (msg : String)
    (he : svc i = ServiceOutcome.err msg) (h4 : strContains msg "429" = true)
    (hi : i < m - 1) :
    retryFrom parse svc m w i (fuel + 1) =
      ((retryFrom parse svc m w (i + 1) fuel).1,
       (retryFrom parse svc m w (i + 1) fuel).2.1 + 1,
       Sleep.backoff (backoffWait w i msg) :: (retryFrom parse svc m w (i + 1) fuel).2.2) := by
  simp [retryFrom, he, h4, hi]

theorem retryFrom_err_429_last {α : Type} (parse : String → Option α) (svc : Nat → ServiceOutcome)
    (m w i fuel : Nat) (msg : String)
    (he : svc i = ServiceOutcome.err msg) (h4 : strContains msg "429" = true)
    (hi : ¬ i < m - 1) :
    retryFrom parse svc m w i (fuel + 1) =
      ((retryFrom parse svc m w (i + 1) fuel).1,
       (retryFrom parse svc m w (i + 1) fuel).2.1 + 1,
       (retryFrom parse svc m w (i + 1) fuel).2.2) := by
  simp [retryFrom, he, h4, hi]

/-- Splitting an `err`-with-`429` outcome out of `isRateLimited`. -/
theorem isRateLimited_elim (o : ServiceOutcome) (h : isRateLimited o = true) :
    ∃ msg, o = ServiceOutcome.err msg ∧ strContains msg "429" = true := by
  cases o with
  | ok t => simp [isRateLimited] at h
  | err msg => exact ⟨msg, rfl, by simpa [isRateLimited] using h⟩

/-- Skipping a block of `k` rate-limited, non-final attempts: the loop makes
`k` extra calls, performs `k` backoff sleeps in front, and then behaves as
the loop restarted at attempt `i + k`. -/
theorem retryFrom_skip {α : Type} (parse : String → Option α) (svc : Nat → ServiceOutcome)
    (m w : Nat) :
    ∀ (k i fuel : Nat), k ≤ fuel → i + k ≤ m - 1 →
      (∀ j, j < k → isRateLimited (svc (i + j)) = true) →
      ∃ pre : List Sleep, pre.length = k ∧
        retryFrom parse svc m w i fuel =
          ((retryFrom parse svc m w (i + k) (fuel - k)).1,
           (retryFrom parse svc m w (i + k) (fuel - k)).2.1 + k,
           pre ++ (retryFrom parse svc m w (i + k) (fuel - k)).2.2) := by
  intro k
  induction k with
  | zero =>
    intro i fuel _ _ _
    exact ⟨[], rfl, by simp⟩
  | succ k ih =>
    intro i fuel hk hm hrl
    obtain ⟨f, rfl⟩ : ∃ f, fuel = f + 1 := ⟨fuel - 1, by omega⟩
    have h0 : isRateLimited (svc i) = true := by
      have := hrl 0 (Nat.succ_pos k)
      simpa using this
    obtain ⟨msg, hmsg, h4⟩ := isRateLimited_elim _ h0
    have hi : i < m - 1 := by omega
    obtain ⟨pre, hlen, heq⟩ := ih (i + 1) f (by omega) (by omega)
      (fun j hj => by
        have := hrl (j + 1) (by omega)
        simpa [Nat.add_assoc, Nat.add_comm 1 j] using this)
    refine ⟨Sleep.backoff (backoffWait w i msg) :: pre, by simp [hlen], ?_⟩
    have hs : f + 1 - (k + 1) = f - k := Nat.succ_sub_succ f k
    have hik : i + (k + 1) = i + 1 + k := by omega
    rw [hs, hik, retryFrom_err_429_lt parse svc m w i f msg hmsg h4 hi, heq]
    dsimp only
    simp [Nat.add_assoc]

/-- Attempt-count and sleep-count invariants of the loop, under the fuel
invariant `i + fuel = m` that the entry point establishes: at most `fuel`
further calls, at least one when fuel remains, exactly one sleep fewer
than calls, and every call before the deciding one was rate-limited. -/
theorem retryFrom_bounds {α : Type} (parse : String → Option α) (svc : Nat → ServiceOutcome)
    (m w : Nat) :
    ∀ (fuel i : Nat), i + fuel = m →
      (retryFrom parse svc m w i fuel).2.1 ≤ fuel ∧
      (0 < fuel → 1 ≤ (retryFrom parse svc m w i fuel).2.1) ∧
      (retryFrom parse svc m w i fuel).2.2.length = (retryFrom parse svc m w i fuel).2.1 - 1 ∧
      (∀ j, i ≤ j → j < i + ((retryFrom parse svc m w i fuel).2.1 - 1) →
        isRateLimited (svc j) = true) := by
  intro fuel
  induction fuel with
  | zero =>
    intro i _
    refine ⟨Nat.le_refl _, by omega, rfl, ?_⟩
    intro j hj hj2
    simp [retryFrom_zero] at hj2
    omega
  | succ f ih =>
    intro i hinv
    cases hsvc : svc i with
    | ok t =>
      cases hp : parse (stripJson t) with
      | some a =>
        rw [retryFrom_ok_some parse svc m w i f t a hsvc hp]
        dsimp only
        refine ⟨by omega, fun _ => by omega, rfl, ?_⟩
        intro j hj hj2
        exfalso; omega
      | none =>
        rw [retryFrom_ok_none parse svc m w i f t hsvc hp]
        dsimp only
        refine ⟨by omega, fun _ => by omega, rfl, ?_⟩
        intro j hj hj2
        exfalso; omega
    | err msg =>
      by_cases h4 : strContains msg "429" = true
      · by_cases hi : i < m - 1
        · rw [retryFrom_err_429_lt parse svc m w i f msg hsvc h4 hi]
          obtain ⟨iha, ihb, ihc, ihd⟩ := ih (i + 1) (by omega)
          have hf : 0 < f := by omega
          have ha1 : 1 ≤ (retryFrom parse svc m w (i + 1) f).2.1 := ihb hf
          dsimp only
          refine ⟨by omega, fun _ => by omega, ?_, ?_⟩
          · simp only [List.length_cons, ihc]
            omega
          · intro j hj hj2
            rcases Nat.eq_or_lt_of_le hj with hji | hji
            · rw [← hji]
              simp [isRateLimited, hsvc, h4]
            · exact ihd j hji (by omega)
        · rw [retryFrom_err_429_last parse svc m w i f msg hsvc h4 hi]
          have hf0 : f = 0 := by omega
          subst hf0
          rw [retryFrom_zero]
          dsimp only
          refine ⟨by omega, fun _ => by omega, rfl, ?_⟩
          intro j hj hj2
          exfalso; omega
      · rw [retryFrom_err_other parse svc m w i f msg hsvc (by simpa using h4)]
        dsimp only
        refine ⟨by omega, fun _ => by omega, rfl, ?_⟩
        intro j hj hj2
        exfalso; omega

/-- No execution of the loop ever performs the cooldown sleep: the
`time.sleep(FORCED_WAIT_SECONDS)` of the success branch sits after a
`return` on every path through that branch. -/
theorem retryFrom_no_cooldown {α : Type} (parse : String → Option α)
    (svc : Nat → ServiceOutcome) (m w : Nat) :
    ∀ (fuel i n : Nat), Sleep.cooldown n ∉ (retryFrom parse svc m w i fuel).2.2 := by
  intro fuel
  induction fuel with
  | zero =>
    intro i n
    simp [retryFrom_zero]
  | succ f ih =>
    intro i n
    cases hsvc : svc i with
    | ok t =>
      cases hp : parse (stripJson t) with
      | some a => rw [retryFrom_ok_some parse svc m w i f t a hsvc hp]; simp
      | none => rw [retryFrom_ok_none parse svc m w i f t hsvc hp]; simp
    | err msg =>
      by_cases h4 : strContains msg "429" = true
      · by_cases hi : i < m - 1
        · rw [retryFrom_err_429_lt parse svc m w i f msg hsvc h4 hi]
          simp
          exact ih (i + 1) n
        · rw [retryFrom_err_429_last parse svc m w i f msg hsvc h4 hi]
          exact ih (i + 1) n
      · rw [retryFrom_err_other parse svc m w i f msg hsvc (by simpa using h4)]
        simp

/-- The transcribed lab-sheet loop is the same function as the transcribed
helper loop. -/
theorem gradeRetryFrom_eq {α : Type} (parse : String → Option α)
    (svc : Nat → ServiceOutcome) (m w : Nat) :
    ∀ (fuel i : Nat), gradeRetryFrom parse svc m w i fuel = retryFrom parse svc m w i fuel := by
  intro fuel
  induction fuel with
  | zero => intro i; rfl
  | succ f ih =>
    intro i
    cases hsvc : svc i with
    | ok t => simp [gradeRetryFrom, retryFrom, hsvc]
    | err msg => simp [gradeRetryFrom, retryFrom, hsvc, ih (i + 1)]

/-! ### Unfolding lemmas stated with a fuel-positivity hypothesis -/

theorem retryFrom_pos_ok_some {α : Type} (parse : String → Option α) (svc : Nat → ServiceOutcome)
    (m w i fuel : Nat) (t : String) (a : α) (hf : 0 < fuel)
    (ht : svc i = ServiceOutcome.ok t) (hp : parse (stripJson t) = some a) :
    retryFrom parse svc m w i fuel = (CallResult.success a, 1, []) := by
  obtain ⟨f, rfl⟩ : ∃ f, fuel = f + 1 := ⟨fuel - 1, by omega⟩
  exact retryFrom_ok_some parse svc m w i f t a ht hp

theorem retryFrom_pos_ok_none {α : Type} (parse : String → Option α) (svc : Nat → ServiceOutcome)
    (m w i fuel : Nat) (t : String) (hf : 0 < fuel)
    (ht : svc i = ServiceOutcome.ok t) (hp : parse (stripJson t) = none) :
    retryFrom parse svc m w i fuel = (CallResult.malformed (stripJson t), 1, []) := by
  obtain ⟨f, rfl⟩ : ∃ f, fuel = f + 1 := ⟨fuel - 1, by omega⟩
  exact retryFrom_ok_none parse svc m w i f t ht hp

theorem retryFrom_pos_err_other {α : Type} (parse : String → Option α) (svc : Nat → ServiceOutcome)
    (m w i fuel : Nat) (msg : String) (hf : 0 < fuel)
    (he : svc i = ServiceOutcome.err msg) (h4 : strContains msg "429" = false) :
    retryFrom parse svc m w i fuel = (CallResult.nonRetryable msg, 1, []) := by
  obtain ⟨f, rfl⟩ : ∃ f, fuel = f + 1 := ⟨fuel - 1, by omega⟩
  exact retryFrom_err_other parse svc m w i f msg he h4

theorem retryFrom_pos_err_429_lt {α : Type} (parse : String → Option α) (svc : Nat → ServiceOutcome)
    (m w i fuel : Nat) (msg : String) (hf : 0 < fuel)
    (he : svc i = ServiceOutcome.err msg) (h4 : strContains msg "429" = true)
    (hi : i < m - 1) :
    retryFrom parse svc m w i fuel =
      ((retryFrom parse svc m w (i + 1) (fuel - 1)).1,
       (retryFrom parse svc m w (i + 1) (fuel - 1)).2.1 + 1,
       Sleep.backoff (backoffWait w i msg) ::
         (retryFrom parse svc m w (i + 1) (fuel - 1)).2.2) := by
  obtain ⟨f, rfl⟩ : ∃ f, fuel = f + 1 := ⟨fuel - 1, by omega⟩
  rw [Nat.add_sub_cancel]
  exact retryFrom_err_429_lt parse svc m w i f msg he h4 hi

theorem retryFrom_pos_err_429_last {α : Type} (parse : String → Option α) (svc : Nat → ServiceOutcome)
    (m w i fuel : Nat) (msg : String) (hf : 0 < fuel)
    (he : svc i = ServiceOutcome.err msg) (h4 : strContains msg "429" = true)
    (hi : ¬ i < m - 1) :
    retryFrom parse svc m w i fuel =
      ((retryFrom parse svc m w (i + 1) (fuel - 1)).1,
       (retryFrom parse svc m w (i + 1) (fuel - 1)).2.1 + 1,
       (retryFrom parse svc m w (i + 1) (fuel - 1)).2.2) := by
  obtain ⟨f, rfl⟩ : ∃ f, fuel = f + 1 := ⟨fuel - 1, by omega⟩
  rw [Nat.add_sub_cancel]
  exact retryFrom_err_429_last parse svc m w i f msg he h4 hi

/-! ### The claims -/

/-- C1: for a service whose every attempt raises a rate-limit-classified
error, `_call_gemini_with_retry` makes exactly `MAX_RETRIES` (= 5)
attempts, sleeps exactly `MAX_RETRIES - 1` (= 4) times — no sleep after
the final attempt — and returns the retries-exhausted failure value. -/
theorem c1_all_rate_limited_exhausts {α : Type} (parse : String → Option α)
    (svc : Nat → ServiceOutcome)
    (h : ∀ j, j < MAX_RETRIES → isRateLimited (svc j) = true) :
    (callGeminiWithRetry parse svc).1 = CallResult.exhausted ∧
    (callGeminiWithRetry parse svc).2.1 = MAX_RETRIES ∧
    (callGeminiWithRetry parse svc).2.2.length = MAX_RETRIES - 1 := by
  have hM : MAX_RETRIES = 5 := rfl
  have e : callGeminiWithRetry parse svc =
      retryFrom parse svc MAX_RETRIES INITIAL_WAIT_SECONDS 0 MAX_RETRIES := rfl
  obtain ⟨msg4, hmsg4, h44⟩ := isRateLimited_elim _ (h 4 (by omega))
  obtain ⟨pre, hlen, heq⟩ := retryFrom_skip parse svc MAX_RETRIES INITIAL_WAIT_SECONDS
    (MAX_RETRIES - 1) 0 MAX_RETRIES (by omega) (by omega)
    (fun j hj => by simpa using h j (by omega))
  have hidx : 0 + (MAX_RETRIES - 1) = 4 := by omega
  have hfuel : MAX_RETRIES - (MAX_RETRIES - 1) = 1 := by omega
  rw [hidx, hfuel] at heq
  have ht : retryFrom parse svc MAX_RETRIES INITIAL_WAIT_SECONDS 4 1 =
      (CallResult.exhausted, 1, []) := by
    rw [retryFrom_pos_err_429_last parse svc MAX_RETRIES INITIAL_WAIT_SECONDS 4 1 msg4
      (by omega) hmsg4 h44 (by omega)]
    rw [show (1 : Nat) - 1 = 0 from rfl, retryFrom_zero]
  rw [e, heq, ht]
  refine ⟨rfl, ?_, ?_⟩
  · dsimp only
    omega
  · simp [hlen]

/-- Witness for C1 at a service that always raises a 429 error. -/
theorem c1_witness :
    (callGeminiWithRetry (fun _ => (none : Option Nat))
        (fun _ => ServiceOutcome.err "429 Resource has been exhausted")).1 =
      CallResult.exhausted ∧
    (callGeminiWithRetry (fun _ => (none : Option Nat))
        (fun _ => ServiceOutcome.err "429 Resource has been exhausted")).2.1 = MAX_RETRIES ∧
    (callGeminiWithRetry (fun _ => (none : Option Nat))
        (fun _ => ServiceOutcome.err "429 Resource has been exhausted")).2.2.length =
      MAX_RETRIES - 1 :=
  c1_all_rate_limited_exhausts _ _ (fun _ _ => rfl)

/-- C2: for every reached, non-final attempt `i` that is rate-limited, the
scheduled backoff sleep equals `D + 1` seconds when the error text embeds
a suggested delay of `D` seconds, and `INITIAL_WAIT_SECONDS * 2 ^ i`
seconds when it embeds none. -/
theorem c2_backoff_wait {α : Type} (parse : String → Option α) (svc : Nat → ServiceOutcome)
    (i : Nat) (msg : String)
    (hi : i < MAX_RETRIES - 1)
    (hpre : ∀ j, j < i → isRateLimited (svc j) = true)
    (hmsg : svc i = ServiceOutcome.err msg)
    (h429 : strContains msg "429" = true) :
    (∀ D, extractRetryDelay msg = some D →
       backoffWait INITIAL_WAIT_SECONDS i msg = D + 1 ∧
       (callGeminiWithRetry parse svc).2.2.get? i = some (Sleep.backoff (D + 1))) ∧
    (extractRetryDelay msg = none →
       backoffWait INITIAL_WAIT_SECONDS i msg = INITIAL_WAIT_SECONDS * 2 ^ i ∧
       (callGeminiWithRetry parse svc).2.2.get? i =
         some (Sleep.backoff (INITIAL_WAIT_SECONDS * 2 ^ i))) := by
  have e : callGeminiWithRetry parse svc =
      retryFrom parse svc MAX_RETRIES INITIAL_WAIT_SECONDS 0 MAX_RETRIES := rfl
  obtain ⟨pre, hlen, heq⟩ := retryFrom_skip parse svc MAX_RETRIES INITIAL_WAIT_SECONDS
    i 0 MAX_RETRIES (by omega) (by omega) (fun j hj => by simpa using hpre j hj)
  have hidx : 0 + i = i := by omega
  rw [hidx] at heq
  have hstep := retryFrom_pos_err_429_lt parse svc MAX_RETRIES INITIAL_WAIT_SECONDS
    i (MAX_RETRIES - i) msg (by omega) hmsg h429 hi
  have hget : (callGeminiWithRetry parse svc).2.2.get? i =
      some (Sleep.backoff (backoffWait INITIAL_WAIT_SECONDS i msg)) := by
    rw [e, heq, hstep]
    dsimp only
    rw [List.get?_eq_getElem?, ← hlen,
      List.getElem?_append_right (Nat.le_refl pre.length)]
    simp
  constructor
  · intro D hD
    have hb : backoffWait INITIAL_WAIT_SECONDS i msg = D + 1 := by
      simp [backoffWait, hD]
    rw [hb] at hget
    exact ⟨hb, hget⟩
  · intro hD
    have hb : backoffWait INITIAL_WAIT_SECONDS i msg = INITIAL_WAIT_SECONDS * 2 ^ i := by
      simp [backoffWait, hD]
    rw [hb] at hget
    exact ⟨hb, hget⟩

/-- Witness for C2 at attempt 0, with a 429 error embedding a suggested
delay of 40 seconds: the scheduled sleep is 41 seconds. -/
theorem c2_witness :
    (callGeminiWithRetry (fun _ => (none : Option Nat))
        (fun _ => ServiceOutcome.err
          "429 quota exceeded retry_delay \x7b\n  seconds: 40\n\x7d")).2.2.get? 0 =
      some (Sleep.backoff 41) :=
  ((c2_backoff_wait (fun _ => (none : Option Nat))
      (fun _ => ServiceOutcome.err
        "429 quota exceeded retry_delay \x7b\n  seconds: 40\n\x7d")
      0 "429 quota exceeded retry_delay \x7b\n  seconds: 40\n\x7d"
      (by decide) (fun j hj => absurd hj (Nat.not_lt_zero j)) rfl rfl).1 40 (by decide)).2

/-- C3: a non-rate-limit error on the first attempt yields exactly 1
attempt, 0 sleeps, and the non-retryable-error failure, for every retry
ceiling (and in particular for the source's `MAX_RETRIES`). -/
theorem c3_non_retryable_immediate {α : Type} (parse : String → Option α)
    (svc : Nat → ServiceOutcome) (maxRetries initialWait : Nat) (msg : String)
    (hm : 0 < maxRetries)
    (hmsg : svc 0 = ServiceOutcome.err msg)
    (h429 : strContains msg "429" = false) :
    callWithRetry parse svc maxRetries initialWait = (CallResult.nonRetryable msg, 1, []) ∧
    callGeminiWithRetry parse svc = (CallResult.nonRetryable msg, 1, []) :=
  ⟨retryFrom_pos_err_other parse svc maxRetries initialWait 0 maxRetries msg hm hmsg h429,
   retryFrom_pos_err_other parse svc MAX_RETRIES INITIAL_WAIT_SECONDS 0 MAX_RETRIES msg
     (by decide) hmsg h429⟩

/-- Witness for C3 at a 404 error and retry ceiling 3. -/
theorem c3_witness :
    callWithRetry (fun _ => (none : Option Nat))
        (fun _ => ServiceOutcome.err "404 model not found") 3 7 =
      (CallResult.nonRetryable "404 model not found", 1, []) ∧
    callGeminiWithRetry (fun _ => (none : Option Nat))
        (fun _ => ServiceOutcome.err "404 model not found") =
      (CallResult.nonRetryable "404 model not found", 1, []) :=
  c3_non_retryable_immediate _ _ 3 7 _ (by decide) rfl rfl

/-- C4: a first attempt that succeeds but whose cleaned text does not
parse yields exactly 1 attempt, 0 sleeps, and the malformed-response
failure; the parse failure is terminal. -/
theorem c4_malformed_terminal {α : Type} (parse : String → Option α)
    (svc : Nat → ServiceOutcome) (t : String)
    (hok : svc 0 = ServiceOutcome.ok t)
    (hp : parse (stripJson t) = none) :
    callGeminiWithRetry parse svc = (CallResult.malformed (stripJson t), 1, []) :=
  retryFrom_pos_ok_none parse svc MAX_RETRIES INITIAL_WAIT_SECONDS 0 MAX_RETRIES t
    (by decide) hok hp

/-- Witness for C4 at a fenced non-JSON response. -/
theorem c4_witness :
    callGeminiWithRetry (fun s => if s = "ok" then some (0 : Nat) else none)
        (fun _ => ServiceOutcome.ok "```json I am not JSON```") =
      (CallResult.malformed (stripJson "```json I am not JSON```"), 1, []) :=
  c4_malformed_terminal _ _ _ rfl (by decide)

/-- C5: for the outcome sequence [rate-limited with suggested delay 5,
rate-limited without hint, success with a parsing payload], the loop
sleeps [6, INITIAL_WAIT_SECONDS * 2] seconds, makes 3 attempts, and
returns the parsed payload. -/
theorem c5_scenario {α : Type} (parse : String → Option α) (svc : Nat → ServiceOutcome)
    (m1 m2 t : String) (payload : α)
    (h0 : svc 0 = ServiceOutcome.err m1) (h0r : strContains m1 "429" = true)
    (h0d : extractRetryDelay m1 = some 5)
    (h1 : svc 1 = ServiceOutcome.err m2) (h1r : strContains m2 "429" = true)
    (h1d : extractRetryDelay m2 = none)
    (h2 : svc 2 = ServiceOutcome.ok t) (hp : parse (stripJson t) = some payload) :
    callGeminiWithRetry parse svc =
      (CallResult.success payload, 3,
       [Sleep.backoff 6, Sleep.backoff (INITIAL_WAIT_SECONDS * 2)]) := by
  have e : callGeminiWithRetry parse svc =
      retryFrom parse svc MAX_RETRIES INITIAL_WAIT_SECONDS 0 MAX_RETRIES := rfl
  have s0 := retryFrom_pos_err_429_lt parse svc MAX_RETRIES INITIAL_WAIT_SECONDS
    0 MAX_RETRIES m1 (by decide) h0 h0r (by decide)
  have s1 := retryFrom_pos_err_429_lt parse svc MAX_RETRIES INITIAL_WAIT_SECONDS
    (0 + 1) (MAX_RETRIES - 1) m2 (by decide) h1 h1r (by decide)
  have s2 := retryFrom_pos_ok_some parse svc MAX_RETRIES INITIAL_WAIT_SECONDS
    (0 + 1 + 1) (MAX_RETRIES - 1 - 1) t payload (by decide) h2 hp
  rw [e, s0, s1, s2]
  have b0 : backoffWait INITIAL_WAIT_SECONDS 0 m1 = 6 := by simp [backoffWait, h0d]
  have b1 : backoffWait INITIAL_WAIT_SECONDS (0 + 1) m2 = INITIAL_WAIT_SECONDS * 2 := by
    simp [backoffWait, h1d]
  rw [b0, b1]

/-- Witness for C5 at concrete error strings and a concrete payload. -/
theorem c5_witness :
    callGeminiWithRetry (fun s => if s = "42" then some (42 : Nat) else none)
        (fun i =>
          if i = 0 then ServiceOutcome.err "429 retry_delay \x7b seconds: 5 \x7d"
          else if i = 1 then ServiceOutcome.err "429 quota exceeded"
          else ServiceOutcome.ok "```json42```") =
      (CallResult.success 42, 3, [Sleep.backoff 6, Sleep.backoff 4]) :=
  c5_scenario _ _ "429 retry_delay \x7b seconds: 5 \x7d" "429 quota exceeded"
    "```json42```" 42 rfl rfl (by decide) rfl rfl (by decide) rfl (by decide)

/-- C6: for every sequence of service outcomes the loop makes between 1
and `MAX_RETRIES` outbound calls, sleeps exactly once per non-final
attempt (one fewer sleep than calls), and every call before the deciding
one was rate-limited, so nothing runs after the deciding attempt. -/
theorem c6_call_and_sleep_invariants {α : Type} (parse : String → Option α)
    (svc : Nat → ServiceOutcome) :
    1 ≤ (callGeminiWithRetry parse svc).2.1 ∧
    (callGeminiWithRetry parse svc).2.1 ≤ MAX_RETRIES ∧
    (callGeminiWithRetry parse svc).2.2.length = (callGeminiWithRetry parse svc).2.1 - 1 ∧
    (∀ j, j < (callGeminiWithRetry parse svc).2.1 - 1 → isRateLimited (svc j) = true) := by
  have e : callGeminiWithRetry parse svc =
      retryFrom parse svc MAX_RETRIES INITIAL_WAIT_SECONDS 0 MAX_RETRIES := rfl
  obtain ⟨ha, hb, hc, hd⟩ := retryFrom_bounds parse svc MAX_RETRIES INITIAL_WAIT_SECONDS
    MAX_RETRIES 0 (by omega)
  rw [e]
  exact ⟨hb (by decide), ha, hc, fun j hj => hd j (by omega) (by simpa using hj)⟩

/-- C7: classification is exactly the `"429"` substring test: a reached
attempt whose stringified error lacks `"429"` terminates at once as the
non-retryable failure with no sleep on the deciding attempt, while one
containing `"429"` continues to a further attempt (or, on the last
attempt, exhausts the retries). -/
theorem c7_classification_429 {α : Type} (parse : String → Option α)
    (svc : Nat → ServiceOutcome) (i : Nat) (msg : String)
    (hi : i < MAX_RETRIES)
    (hpre : ∀ j, j < i → isRateLimited (svc j) = true)
    (hmsg : svc i = ServiceOutcome.err msg) :
    (strContains msg "429" = false →
       (callGeminiWithRetry parse svc).1 = CallResult.nonRetryable msg ∧
       (callGeminiWithRetry parse svc).2.1 = i + 1 ∧
       (callGeminiWithRetry parse svc).2.2.length = i) ∧
    (strContains msg "429" = true →
       (i < MAX_RETRIES - 1 → i + 2 ≤ (callGeminiWithRetry parse svc).2.1) ∧
       (i = MAX_RETRIES - 1 →
          (callGeminiWithRetry parse svc).1 = CallResult.exhausted ∧
          (callGeminiWithRetry parse svc).2.1 = MAX_RETRIES)) := by
  have e : callGeminiWithRetry parse svc =
      retryFrom parse svc MAX_RETRIES INITIAL_WAIT_SECONDS 0 MAX_RETRIES := rfl
  have hM : MAX_RETRIES = 5 := rfl
  obtain ⟨pre, hlen, heq⟩ := retryFrom_skip parse svc MAX_RETRIES INITIAL_WAIT_SECONDS
    i 0 MAX_RETRIES (by omega) (by omega) (fun j hj => by simpa using hpre j hj)
  have hidx : 0 + i = i := by omega
  rw [hidx] at heq
  constructor
  · intro h4
    have hstep := retryFrom_pos_err_other parse svc MAX_RETRIES INITIAL_WAIT_SECONDS
      i (MAX_RETRIES - i) msg (by omega) hmsg h4
    rw [e, heq, hstep]
    dsimp only
    refine ⟨rfl, by omega, by simp [hlen]⟩
  · intro h4
    constructor
    · intro hlt
      have hstep := retryFrom_pos_err_429_lt parse svc MAX_RETRIES INITIAL_WAIT_SECONDS
        i (MAX_RETRIES - i) msg (by omega) hmsg h4 hlt
      obtain ⟨ha, hb, hc, hd⟩ := retryFrom_bounds parse svc MAX_RETRIES INITIAL_WAIT_SECONDS
        (MAX_RETRIES - i - 1) (i + 1) (by omega)
      have hb1 : 1 ≤ (retryFrom parse svc MAX_RETRIES INITIAL_WAIT_SECONDS (i + 1)
          (MAX_RETRIES - i - 1)).2.1 := hb (by omega)
      rw [e, heq, hstep]
      dsimp only
      omega
    · intro hfin
      have hstep := retryFrom_pos_err_429_last parse svc MAX_RETRIES INITIAL_WAIT_SECONDS
        i (MAX_RETRIES - i) msg (by omega) hmsg h4 (by omega)
      have hz : MAX_RETRIES - i - 1 = 0 := by omega
      rw [hz, retryFrom_zero] at hstep
      rw [e, heq, hstep]
      dsimp only
      exact ⟨rfl, by omega⟩

/-- Witness for C7 at a 500 error on the first attempt. -/
theorem c7_witness :
    (callGeminiWithRetry (fun _ => (none : Option Nat))
        (fun _ => ServiceOutcome.err "500 Internal Server Error")).1 =
      CallResult.nonRetryable "500 Internal Server Error" ∧
    (callGeminiWithRetry (fun _ => (none : Option Nat))
        (fun _ => ServiceOutcome.err "500 Internal Server Error")).2.1 = 1 ∧
    (callGeminiWithRetry (fun _ => (none : Option Nat))
        (fun _ => ServiceOutcome.err "500 Internal Server Error")).2.2.length = 0 :=
  (c7_classification_429 _ _ 0 _ (by decide)
    (fun j hj => absurd hj (Nat.not_lt_zero j)) rfl).1 rfl

/-- C8 counterexample: the claim asserts the post-success cooldown sleep
is reachable in `gemini_grade_full_lab_sheet`; it is not — in that loop
too, both paths of the inner try/except return before the
`time.sleep(FORCED_WAIT_SECONDS)` statement, so no execution ever
performs a cooldown sleep. -/
theorem c8_counterexample :
    ¬ ∃ (parse : String → Option Nat) (svc : Nat → ServiceOutcome) (n : Nat),
        Sleep.cooldown n ∈ (geminiGradeFullLabSheet parse svc).2.2 := by
  rintro ⟨parse, svc, n, hmem⟩
  rw [show geminiGradeFullLabSheet parse svc =
        gradeRetryFrom parse svc MAX_RETRIES INITIAL_WAIT_SECONDS 0 MAX_RETRIES from rfl,
    gradeRetryFrom_eq] at hmem
  exact retryFrom_no_cooldown parse svc MAX_RETRIES INITIAL_WAIT_SECONDS MAX_RETRIES 0 n hmem

/-- C8 amended: the post-success cooldown sleep is unreachable in both
`_call_gemini_with_retry` and `gemini_grade_full_lab_sheet`, and in both
a successfully parsed payload at the deciding attempt is returned as a
success — the cooldown step can never convert a success into a failure. -/
theorem c8_amended_cooldown_dead {α : Type} (parse : String → Option α)
    (svc : Nat → ServiceOutcome) :
    (∀ n, Sleep.cooldown n ∉ (callGeminiWithRetry parse svc).2.2) ∧
    (∀ n, Sleep.cooldown n ∉ (geminiGradeFullLabSheet parse svc).2.2) ∧
    (∀ i t payload, i < MAX_RETRIES →
       (∀ j, j < i → isRateLimited (svc j) = true) →
       svc i = ServiceOutcome.ok t → parse (stripJson t) = some payload →
       (callGeminiWithRetry parse svc).1 = CallResult.success payload ∧
       (geminiGradeFullLabSheet parse svc).1 = CallResult.success payload) := by
  have eg : geminiGradeFullLabSheet parse svc =
      retryFrom parse svc MAX_RETRIES INITIAL_WAIT_SECONDS 0 MAX_RETRIES := by
    rw [show geminiGradeFullLabSheet parse svc =
          gradeRetryFrom parse svc MAX_RETRIES INITIAL_WAIT_SECONDS 0 MAX_RETRIES from rfl,
      gradeRetryFrom_eq]
  refine ⟨fun n => retryFrom_no_cooldown parse svc MAX_RETRIES INITIAL_WAIT_SECONDS
      MAX_RETRIES 0 n,
    fun n => by
      rw [eg]
      exact retryFrom_no_cooldown parse svc MAX_RETRIES INITIAL_WAIT_SECONDS MAX_RETRIES 0 n,
    ?_⟩
  intro i t payload hi hpre hok hp
  have e : callGeminiWithRetry parse svc =
      retryFrom parse svc MAX_RETRIES INITIAL_WAIT_SECONDS 0 MAX_RETRIES := rfl
  obtain ⟨pre, hlen, heq⟩ := retryFrom_skip parse svc MAX_RETRIES INITIAL_WAIT_SECONDS
    i 0 MAX_RETRIES (by omega) (by omega) (fun j hj => by simpa using hpre j hj)
  have hidx : 0 + i = i := by omega
  rw [hidx] at heq
  have hstep := retryFrom_pos_ok_some parse svc MAX_RETRIES INITIAL_WAIT_SECONDS
    i (MAX_RETRIES - i) t payload (by omega) hok hp
  rw [e, eg, heq, hstep]
  exact ⟨rfl, rfl⟩

/-- Witness for C8's amended statement: no cooldown in the trace, and a
parsed payload is returned as a success by both loops. -/
theorem c8_witness :
    Sleep.cooldown FORCED_WAIT_SECONDS ∉
      (callGeminiWithRetry (fun s => if s = "42" then some (42 : Nat) else none)
        (fun _ => ServiceOutcome.ok "```json42```")).2.2 ∧
    (callGeminiWithRetry (fun s => if s = "42" then some (42 : Nat) else none)
        (fun _ => ServiceOutcome.ok "```json42```")).1 = CallResult.success 42 ∧
    (geminiGradeFullLabSheet (fun s => if s = "42" then some (42 : Nat) else none)
        (fun _ => ServiceOutcome.ok "```json42```")).1 = CallResult.success 42 :=
  ⟨(c8_amended_cooldown_dead _ _).1 FORCED_WAIT_SECONDS,
   ((c8_amended_cooldown_dead _ _).2.2 0 "```json42```" 42 (by decide)
     (fun j hj => absurd hj (Nat.not_lt_zero j)) rfl (by decide)).1,
   ((c8_amended_cooldown_dead _ _).2.2 0 "```json42```" 42 (by decide)
     (fun j hj => absurd hj (Nat.not_lt_zero j)) rfl (by decide)).2⟩

/-- C9: on identical service outcomes the retry loop embedded in
`gemini_grade_full_lab_sheet` and `_call_gemini_with_retry` traverse the
same state machine: same result variant, same number of attempts, same
sequence of sleeps. -/
theorem c9_loops_equivalent {α : Type} (parse : String → Option α)
    (svc : Nat → ServiceOutcome) :
    geminiGradeFullLabSheet parse svc = callGeminiWithRetry parse svc :=
  gradeRetryFrom_eq parse svc MAX_RETRIES INITIAL_WAIT_SECONDS MAX_RETRIES 0

/-- C10 counterexample: for a non-blank query, when `get_db_connection`
cannot open a connection it returns `None` and `conn.cursor()` raises an
`AttributeError` that the function does not catch — so `validate_sql_query`
does not return an `(is_valid, message)` pair there, refuting the claim's
second half. -/
theorem c10_counterexample :
    validate_sql_query ⟨false, fun _ => none⟩ "SELECT 1" =
      (Except.error "AttributeError: NoneType object has no attribute cursor",
       [DbEvent.connect]) := by
  rfl

/-- C10 amended: a blank query returns `(False, "Query is empty.")` with
no database interaction; a non-blank query with an open connection
returns the pair determined by the dry-run EXPLAIN; a non-blank query
without a connection raises instead of returning a pair. -/
theorem c10_amended_validate (env : DbEnv) (q : String) :
    ((q.isEmpty || (pyStripStr q).isEmpty) = true →
        validate_sql_query env q = (Except.ok (false, "Query is empty."), [])) ∧
    ((q.isEmpty || (pyStripStr q).isEmpty) = false → env.connectOk = true →
        (env.explainError ("EXPLAIN " ++ q) = none →
           validate_sql_query env q =
             (Except.ok (true, "Query syntax is valid."),
              [DbEvent.connect, DbEvent.execute ("EXPLAIN " ++ q)])) ∧
        (∀ e, env.explainError ("EXPLAIN " ++ q) = some e →
           validate_sql_query env q =
             (Except.ok (false, "Invalid Query: " ++ firstLine e),
              [DbEvent.connect, DbEvent.execute ("EXPLAIN " ++ q)]))) ∧
    ((q.isEmpty || (pyStripStr q).isEmpty) = false → env.connectOk = false →
        validate_sql_query env q =
          (Except.error "AttributeError: NoneType object has no attribute cursor",
           [DbEvent.connect])) := by
  refine ⟨?_, ?_, ?_⟩
  · intro hb
    simp [validate_sql_query, hb]
  · intro hb hc
    constructor
    · intro he
      simp [validate_sql_query, hb, hc, he]
    · intro er he
      simp [validate_sql_query, hb, hc, he]
  · intro hb hc
    simp [validate_sql_query, hb, hc]

/-- Witness for C10's amended statement, exercising the blank, valid,
and connection-failure branches. -/
theorem c10_witness :
    validate_sql_query ⟨true, fun _ => none⟩ "   " =
      (Except.ok (false, "Query is empty."), []) ∧
    validate_sql_query ⟨true, fun _ => none⟩ "SELECT 1" =
      (Except.ok (true, "Query syntax is valid."),
       [DbEvent.connect, DbEvent.execute ("EXPLAIN " ++ "SELECT 1")]) ∧
    validate_sql_query ⟨false, fun _ => none⟩ "SELECT 1" =
      (Except.error "AttributeError: NoneType object has no attribute cursor",
       [DbEvent.connect]) :=
  ⟨(c10_amended_validate _ _).1 (by decide),
   ((c10_amended_validate _ _).2.1 (by decide) rfl).1 rfl,
   (c10_amended_validate _ _).2.2 (by decide) rfl⟩

end SqlValidatorGenerator
